import Mathlib

/-!
Verification development for the Signal Evaluation & Recommendation Engine
in send_briefing.py.

Modelling conventions:
* Python float NaN is modelled by `Option ℚ`: `none` stands for NaN, and
  every comparison in the source is guarded by an explicit definedness
  check (`is_nan`), which the `Option` pattern matches reproduce.
* Decimal constants of the source (0.98, 1.02, -1.5, -1.8, 0.7, -3.5,
  1e-9, ...) are modelled as the exact rationals they denote.
* pandas `sort_values("score", ascending=False)` computes a stable
  ascending argsort of the key and then reverses the resulting indexer,
  so it is modelled as the reverse of a stable ascending insertion sort.
* pandas `rolling(w).mean()` with default min_periods yields NaN until
  `w` observations are available; hence `rolling(20).mean().iloc[-1]`
  is `none` on windows shorter than 20, and `rolling(14).mean()` of a
  diffed series needs series length at least 15 at the last position.
-/

namespace SendBriefing

/-- Market risk level returned by market_brief. -/
inductive RiskLevel
| good
| meh
| bad
deriving DecidableEq, Repr

/-- Aggregate net buy/sell flow pair; each side may be NaN. -/
structure Flow where
  foreign : Option ℚ
  inst : Option ℚ
deriving DecidableEq, Repr

/-- Guarded comparison of the source: `(not is_nan(x)) and x <= t`. -/
def defLe (x : Option ℚ) (t : ℚ) : Bool :=
  match x with
  | some v => decide (v ≤ t)
  | none => false

/-- Guarded comparison of the source: `(not is_nan(x)) and x >= t`. -/
def defGe (x : Option ℚ) (t : ℚ) : Bool :=
  match x with
  | some v => decide (t ≤ v)
  | none => false

/-- The flow risk condition of market_brief: flow data present and both
foreign and institutional net flow defined and negative. -/
def bothNegFlow (flow : Option Flow) : Bool :=
  match flow with
  | some fl =>
    match fl.foreign, fl.inst with
    | some f, some i => decide (f < 0) && decide (i < 0)
    | _, _ => false
  | none => false

/-- Risk-hit counter of market_brief, accumulated exactly as in the
source: kospi <= -1.5, kosdaq <= -1.8, vix >= 6.0, and the flow
condition, each adding one hit. -/
def risk_hits (kospi kosdaq vix : Option ℚ) (flow : Option Flow) : Nat :=
  let hits : Nat := 0
  let hits := if defLe kospi (-(3/2)) then hits + 1 else hits
  let hits := if defLe kosdaq (-(9/5)) then hits + 1 else hits
  let hits := if defGe vix 6 then hits + 1 else hits
  let hits := if bothNegFlow flow then hits + 1 else hits
  hits

/-- Classification of the hit counter in market_brief. -/
def risk_level_of_hits (hits : Nat) : RiskLevel :=
  if hits ≥ 2 then RiskLevel.bad
  else if hits = 1 then RiskLevel.meh
  else RiskLevel.good

/-- The risk level computed by market_brief. -/
def market_brief (kospi kosdaq vix : Option ℚ) (flow : Option Flow) : RiskLevel :=
  risk_level_of_hits (risk_hits kospi kosdaq vix flow)

/-- The four exit signal flags of exit_signals. -/
inductive ExitFlag
| rsi70
| dist20hi
| chg5d12
| nearHigh3m
deriving DecidableEq, Repr

/-- Staged exit recommendation of exit_signals. -/
inductive ExitStage
| none
| first
| second
| third
deriving DecidableEq, Repr

/-- dist20 as computed inside exit_signals: defined only when ma20 and
close are defined and ma20 is nonzero. -/
def dist20calc (close ma20 : Option ℚ) : Option ℚ :=
  match ma20, close with
  | some m, some c => if m ≠ 0 then some ((c / m - 1) * 100) else none
  | _, _ => none

/-- The near-3-month-high flag condition of exit_signals: high_3m and
close defined, high_3m nonzero, and close >= high_3m * 0.98. -/
def nearHighFlag (close high_3m : Option ℚ) : Bool :=
  match high_3m, close with
  | some h, some c => decide (h ≠ 0) && decide (h * (98/100) ≤ c)
  | _, _ => false

/-- The flag list built by exit_signals, in source order. -/
def exitFlagList (close ma20 rsi_v chg5d high_3m : Option ℚ) : List ExitFlag :=
  let flags : List ExitFlag := []
  let flags := if defGe rsi_v 70 then flags ++ [ExitFlag.rsi70] else flags
  let flags := if defGe (dist20calc close ma20) 6 then flags ++ [ExitFlag.dist20hi] else flags
  let flags := if defGe chg5d 12 then flags ++ [ExitFlag.chg5d12] else flags
  let flags := if nearHighFlag close high_3m then flags ++ [ExitFlag.nearHigh3m] else flags
  flags

/-- The overheat escalation predicate of exit_signals: rsi >= 80, or
chg5d >= 15, or (near-high flag in the flag list and dist20 >= 9). -/
def escalationCheck (flags : List ExitFlag) (rsi_v chg5d dist20 : Option ℚ) : Bool :=
  defGe rsi_v 80 || defGe chg5d 15 ||
    (decide (ExitFlag.nearHigh3m ∈ flags) && defGe dist20 9)

/-- exit_signals: returns the stage, the flag list, and the dist20 value,
with the staged overwrites of the source. -/
def exit_signals (close ma20 rsi_v chg5d high_3m : Option ℚ) :
    ExitStage × List ExitFlag × Option ℚ :=
  let dist20 := dist20calc close ma20
  let flags := exitFlagList close ma20 rsi_v chg5d high_3m
  let n := flags.length
  let stage := ExitStage.none
  let stage := if n ≥ 2 then ExitStage.first else stage
  let stage := if n ≥ 3 then ExitStage.second else stage
  let stage := if decide (n ≥ 3) && escalationCheck flags rsi_v chg5d dist20 then ExitStage.third
    else stage
  (stage, flags, dist20)

/-- The structured outcomes of entry_plan_us. -/
inductive EntryPlan
| deferBadMarket
| insufficientData
| aboveBand
| belowBand
| insideBand
deriving DecidableEq, Repr

/-- entry_plan_us: defer on bad market, insufficient-data deferral on
undefined or zero inputs, otherwise the three-way MA20 band. -/
def entry_plan_us (close ma20 : Option ℚ) (market_level : RiskLevel) : EntryPlan :=
  if market_level = RiskLevel.bad then EntryPlan.deferBadMarket
  else
    match close, ma20 with
    | some c, some m =>
      if m = 0 then EntryPlan.insufficientData
      else
        let low := m * (98/100)
        let high := m * (102/100)
        if c > high then EntryPlan.aboveBand
        else if c < low then EntryPlan.belowBand
        else EntryPlan.insideBand
    | _, _ => EntryPlan.insufficientData

/-- Consecutive differences, as series.diff() without its leading NaN. -/
def diffs (s : List ℚ) : List ℚ :=
  (s.zip s.tail).map (fun p => p.2 - p.1)

/-- The last n elements of a list (the window a rolling statistic sees at
the final position). -/
def lastN (n : Nat) (s : List ℚ) : List ℚ :=
  s.drop (s.length - n)

/-- Arithmetic mean of a list of rationals. -/
def listMean (s : List ℚ) : ℚ :=
  s.sum / (s.length : ℚ)

/-- Mean gain over the last period deltas: delta.clip(lower=0). -/
def meanGain (s : List ℚ) (period : Nat) : ℚ :=
  listMean ((lastN period (diffs s)).map (fun d => max d 0))

/-- Mean loss over the last period deltas: -(delta.clip(upper=0)). -/
def meanLoss (s : List ℚ) (period : Nat) : ℚ :=
  listMean ((lastN period (diffs s)).map (fun d => max (-d) 0))

/-- The last value of rsi(series, period): none when the rolling windows
are not yet defined (series shorter than period+1, because diff
contributes a NaN at position 0), else 100 - 100/(1+RS) with the
epsilon substitution loss.replace(0, 1e-9). -/
def rsiLast (s : List ℚ) (period : Nat) : Option ℚ :=
  if s.length < period + 1 then none
  else
    let g := meanGain s period
    let l := meanLoss s period
    let rs := g / (if l = 0 then 1 / 1000000000 else l)
    some (100 - 100 / (1 + rs))

/-- Fundamentals lookup result of kr_fundamental; each field may be NaN. -/
structure Fundamentals where
  per : Option ℚ
  eps : Option ℚ
deriving DecidableEq, Repr

/-- The record returned by score_candidate for a surviving candidate.
Candidate identifiers are the six-digit numeric KRX tickers; they are
modelled as naturals, on which the identifier order of the digit
strings coincides with the numeric order. -/
structure CandidateRecord where
  code : ℕ
  close : ℚ
  mom5 : Option ℚ
  dist20 : Option ℚ
  eps : ℚ
  per : Option ℚ
  score : ℚ
  ma20 : Option ℚ
  flow : Option Flow
deriving DecidableEq, Repr

/-- Last close of the candidate price window. -/
def windowClose (window : List ℚ) : Option ℚ :=
  window.getLast?

/-- ma20 of the candidate window: rolling(20).mean().iloc[-1], which is
NaN whenever fewer than 20 observations exist. -/
def windowMa20 (window : List ℚ) : Option ℚ :=
  if window.length ≥ 20 then some (listMean (lastN 20 window)) else none

/-- dist20 of the candidate window: defined when ma20 is defined and
nonzero (close is the last element, defined on nonempty windows). -/
def windowDist20 (window : List ℚ) : Option ℚ :=
  match windowClose window, windowMa20 window with
  | some c, some m => if m ≠ 0 then some ((c / m - 1) * 100) else none
  | _, _ => none

/-- mom5 of the candidate window: 5-session percentage change, defined
when at least 6 points exist and the reference close is nonzero. -/
def windowMom5 (window : List ℚ) : Option ℚ :=
  if window.length ≥ 6 then
    match windowClose window, window[window.length - 6]? with
    | some c, some c5 => if c5 ≠ 0 then some ((c / c5 - 1) * 100) else none
    | _, _ => none
  else none

/-- Flow penalty of score_candidate: -3.5 exactly when flow data is
present and both sides are defined and negative. -/
def flowPenaltyCalc (flow : Option Flow) : ℚ :=
  match flow with
  | some fl =>
    match fl.foreign, fl.inst with
    | some f, some i => if f < 0 ∧ i < 0 then -(7/2) else 0
    | _, _ => 0
  | none => 0

/-- The score accumulation of score_candidate, with the successive
augmented assignments of the source. -/
def srcScore (mom5 dist20 per : Option ℚ) (flow_penalty : ℚ) : ℚ :=
  let score : ℚ := 0
  let score := match mom5 with
    | some m => score + m
    | none => score
  let score := match dist20 with
    | some d => score + max (min d 6) (-6) * (7/10)
    | none => score
  let score := match per with
    | some p => if p ≥ 60 then score - 5 else if p ≥ 35 then score - 2 else score
    | none => score
  score + flow_penalty

/-- score_candidate: window shorter than 10 points rejected, hard
exclusions on overheated dist20/mom5 and on missing or non-positive
fundamentals, then the composite score. -/
def score_candidate (code : ℕ) (window : List ℚ) (fund : Option Fundamentals)
    (flow : Option Flow) : Option CandidateRecord :=
  if window.length < 10 then none
  else
    match windowClose window with
    | none => none
    | some close =>
      if defGe (windowDist20 window) 12 then none
      else if defGe (windowMom5 window) 18 then none
      else
        match fund with
        | none => none
        | some f =>
          match f.eps with
          | none => none
          | some eps =>
            if eps ≤ 0 then none
            else
              some { code := code
                     close := close
                     mom5 := windowMom5 window
                     dist20 := windowDist20 window
                     eps := eps
                     per := f.per
                     score := srcScore (windowMom5 window) (windowDist20 window) f.per
                       (flowPenaltyCalc flow)
                     ma20 := windowMa20 window
                     flow := flow }

/-- One scoring input of the candidate universe. -/
structure CandInput where
  code : ℕ
  window : List ℚ
  fund : Option Fundamentals
  flow : Option Flow
deriving DecidableEq, Repr

/-- The surviving candidate records, in universe order, as collected by
the loop of kr_reco_block. -/
def collectCandidates (inputs : List CandInput) : List CandidateRecord :=
  inputs.filterMap (fun i => score_candidate i.code i.window i.fund i.flow)

/-- The caller-visible outcome kinds of kr_reco_block. -/
inductive RecoMsg
| noRecoBad
| noCandidates
| picksList
deriving DecidableEq, Repr

/-- Result of kr_reco_block: an outcome kind plus the picked records. -/
structure RecoResult where
  msg : RecoMsg
  picks : List CandidateRecord
deriving DecidableEq, Repr

/-- pandas sort_values on the score column with ascending=False: a
stable ascending argsort of the key whose indexer is then reversed. -/
def sortDescByScore (l : List CandidateRecord) : List CandidateRecord :=
  (List.insertionSort (fun a b => a.score ≤ b.score) l).reverse

/-- kr_reco_block: on bad risk the selection is skipped with the
no-recommendation message; otherwise the surviving candidates are
sorted by score descending and the top pick_n are taken, with
pick_n = 2 on meh risk and the limit otherwise. -/
def kr_reco_block (risk_level : RiskLevel) (limit : Nat)
    (candidates : List CandidateRecord) : RecoResult :=
  if risk_level = RiskLevel.bad then { msg := RecoMsg.noRecoBad, picks := [] }
  else if candidates.isEmpty then { msg := RecoMsg.noCandidates, picks := [] }
  else
    let sorted := sortDescByScore candidates
    let pick_n := if risk_level = RiskLevel.meh then 2 else limit
    { msg := RecoMsg.picksList, picks := sorted.take pick_n }

/-- Flag count as the claim words it, for a fully defined snapshot:
cardinality of the set of satisfied threshold conditions. -/
def specExitFlagCount (close ma20 rsi_v chg5d high_3m : ℚ) : Nat :=
  (if 70 ≤ rsi_v then 1 else 0) +
  (if 6 ≤ (close / ma20 - 1) * 100 then 1 else 0) +
  (if 12 ≤ chg5d then 1 else 0) +
  (if high_3m * (98/100) ≤ close then 1 else 0)

/-- Escalation predicate as the claim words it: rsi >= 80, or
chg5d >= 15, or (near-3-month-high flag set and dist20 >= 9). -/
def specEscalation (close ma20 rsi_v chg5d high_3m : ℚ) : Bool :=
  decide (80 ≤ rsi_v) || decide (15 ≤ chg5d) ||
    (decide (high_3m * (98/100) ≤ close) && decide (9 ≤ (close / ma20 - 1) * 100))

/-- Stage mapping as the claim words it: none below two flags, first at
exactly two, and at three or more either second or, under the
escalation predicate, third. -/
def specExitStage (close ma20 rsi_v chg5d high_3m : ℚ) : ExitStage :=
  let n := specExitFlagCount close ma20 rsi_v chg5d high_3m
  if n < 2 then ExitStage.none
  else if n = 2 then ExitStage.first
  else if specEscalation close ma20 rsi_v chg5d high_3m then ExitStage.third
  else ExitStage.second

/-- Hit count as the claim words it: one hit per triggered condition,
with undefined or missing inputs contributing nothing. -/
def specRiskHits (kospi kosdaq vix : Option ℚ) (flow : Option Flow) : Nat :=
  (match kospi with
   | some k => if k ≤ -(3/2) then 1 else 0
   | none => 0) +
  (match kosdaq with
   | some k => if k ≤ -(9/5) then 1 else 0
   | none => 0) +
  (match vix with
   | some v => if 6 ≤ v then 1 else 0
   | none => 0) +
  (match flow with
   | some fl =>
     match fl.foreign, fl.inst with
     | some f, some i => if f < 0 ∧ i < 0 then 1 else 0
     | _, _ => 0
   | none => 0)

/-- Valuation adjustment as the claim words it: -5 for per >= 60, -2 for
35 <= per < 60, else 0, and 0 when per is undefined. -/
def specValuationAdj (per : Option ℚ) : ℚ :=
  match per with
  | some p => if 60 ≤ p then -5 else if 35 ≤ p ∧ p < 60 then -2 else 0
  | none => 0

/-- Flow penalty as the claim words it: -3.5 exactly when both sides of
the flow pair are available and simultaneously negative, else 0. -/
def specFlowPenalty (flow : Option Flow) : ℚ :=
  match flow with
  | some fl =>
    match fl.foreign, fl.inst with
    | some f, some i => if f < 0 ∧ i < 0 then -(7/2) else 0
    | _, _ => 0
  | none => 0

/-- Composite score as the claim words it: momentum contribution, the
clamped trend distance scaled by 0.7, the valuation adjustment, and
the flow penalty. -/
def specScore (mom5 dist20 per : Option ℚ) (flow : Option Flow) : ℚ :=
  (match mom5 with
   | some m => m
   | none => 0) +
  (match dist20 with
   | some d => min (max d (-6)) 6 * (7/10)
   | none => 0) +
  specValuationAdj per + specFlowPenalty flow

/-- Entry plan as the claim words it: defer on bad risk, insufficient
data on undefined or zero inputs, and otherwise the inside/above/below
comparison against the band [ma20*0.98, ma20*1.02]. -/
def specEntryPlan (close ma20 : Option ℚ) (level : RiskLevel) : EntryPlan :=
  if level = RiskLevel.bad then EntryPlan.deferBadMarket
  else
    match close, ma20 with
    | some c, some m =>
      if m = 0 then EntryPlan.insufficientData
      else if m * (98/100) ≤ c ∧ c ≤ m * (102/100) then EntryPlan.insideBand
      else if m * (102/100) < c then EntryPlan.aboveBand
      else EntryPlan.belowBand
    | _, _ => EntryPlan.insufficientData

/-- Modelled from the spec: the shorter-window moving average that the
spec describes for candidate windows with fewer than 20 points (the
same moving-average helper over all available points). The source has
no such fallback; this definition exists only to compare the claim
against the code. -/
def specShortMa (window : List ℚ) : Option ℚ :=
  if window.length = 0 then none
  else some (listMean (lastN (min 20 window.length) window))

/-- Concrete 10-point window used to examine short candidate windows. -/
def w10 : List ℚ := [1, 2, 3, 4, 5, 6, 7, 8, 9, 10]

/-- Concrete flat 20-point window: every close equal to 100. -/
def w20flat : List ℚ := List.replicate 20 100

/-- Concrete 20-point window whose last close sits 13 percent above the
20-point mean: closes 87, then eighteen times 100, then 113. -/
def w20hot : List ℚ := 87 :: (List.replicate 18 100 ++ [113])

/-- Concrete surviving candidate with identifier 1 and score 5. -/
def recA : CandidateRecord :=
  { code := 1, close := 1, mom5 := none, dist20 := none, eps := 1, per := none,
    score := 5, ma20 := none, flow := none }

/-- Concrete surviving candidate with identifier 2 and the same score 5. -/
def recB : CandidateRecord :=
  { code := 2, close := 1, mom5 := none, dist20 := none, eps := 1, per := none,
    score := 5, ma20 := none, flow := none }

/-- The record score_candidate produces on the flat window with per 10,
eps 5 and no flow data. -/
def recFlat : CandidateRecord :=
  { code := 2, close := 100, mom5 := some 0, dist20 := some 0, eps := 5, per := some 10,
    score := 0, ma20 := some 100, flow := none }

instance : DecidableRel (fun a b : CandidateRecord => a.score ≤ b.score) :=
  fun a b => inferInstanceAs (Decidable (a.score ≤ b.score))

instance : IsTotal CandidateRecord (fun a b => a.score ≤ b.score) :=
  ⟨fun a b => le_total a.score b.score⟩

instance : IsTrans CandidateRecord (fun a b => a.score ≤ b.score) :=
  ⟨fun _ _ _ h1 h2 => le_trans h1 h2⟩

/-! ## Helper lemmas -/

theorem exit_signals_flags (close ma20 rsi_v chg5d high_3m : Option ℚ) :
    (exit_signals close ma20 rsi_v chg5d high_3m).2.1 =
      exitFlagList close ma20 rsi_v chg5d high_3m := rfl

theorem exit_signals_dist (close ma20 rsi_v chg5d high_3m : Option ℚ) :
    (exit_signals close ma20 rsi_v chg5d high_3m).2.2 = dist20calc close ma20 := rfl

theorem mem_flags_rsi70 (close ma20 rsi_v chg5d high_3m : Option ℚ) :
    ExitFlag.rsi70 ∈ exitFlagList close ma20 rsi_v chg5d high_3m ↔ defGe rsi_v 70 = true := by
  unfold exitFlagList
  split_ifs <;> simp_all

theorem mem_flags_dist20hi (close ma20 rsi_v chg5d high_3m : Option ℚ) :
    ExitFlag.dist20hi ∈ exitFlagList close ma20 rsi_v chg5d high_3m ↔
      defGe (dist20calc close ma20) 6 = true := by
  unfold exitFlagList
  split_ifs <;> simp_all

theorem mem_flags_chg5d12 (close ma20 rsi_v chg5d high_3m : Option ℚ) :
    ExitFlag.chg5d12 ∈ exitFlagList close ma20 rsi_v chg5d high_3m ↔ defGe chg5d 12 = true := by
  unfold exitFlagList
  split_ifs <;> simp_all

theorem mem_flags_nearHigh (close ma20 rsi_v chg5d high_3m : Option ℚ) :
    ExitFlag.nearHigh3m ∈ exitFlagList close ma20 rsi_v chg5d high_3m ↔
      nearHighFlag close high_3m = true := by
  unfold exitFlagList
  split_ifs <;> simp_all

theorem exit_signals_fst (close ma20 rsi_v chg5d high_3m : Option ℚ) :
    (exit_signals close ma20 rsi_v chg5d high_3m).1 =
      (if decide ((exitFlagList close ma20 rsi_v chg5d high_3m).length ≥ 3) &&
            escalationCheck (exitFlagList close ma20 rsi_v chg5d high_3m) rsi_v chg5d
              (dist20calc close ma20) then ExitStage.third
       else if (exitFlagList close ma20 rsi_v chg5d high_3m).length ≥ 3 then ExitStage.second
       else if (exitFlagList close ma20 rsi_v chg5d high_3m).length ≥ 2 then ExitStage.first
       else ExitStage.none) := rfl

theorem risk_hits_eq_spec (kospi kosdaq vix : Option ℚ) (flow : Option Flow) :
    risk_hits kospi kosdaq vix flow = specRiskHits kospi kosdaq vix flow := by
  unfold risk_hits specRiskHits defLe defGe bothNegFlow
  rcases kospi with _ | k <;> rcases kosdaq with _ | kq <;> rcases vix with _ | v <;>
    rcases flow with _ | ⟨(_ | ff), (_ | fi)⟩ <;>
    simp <;> split_ifs <;> omega

/-! ## Claim theorems -/

/-- Claim C6: the entry plan generator defers all entries on bad risk
regardless of price, defers on undefined close or ma20 or zero ma20,
and otherwise compares close to the band [ma20*0.98, ma20*1.02],
recommending pullback-wait above it, dollar-cost averaging below it,
and staged entry inside it. -/
theorem C6_entry_plan_cases (close ma20 : Option ℚ) (level : RiskLevel) :
    entry_plan_us close ma20 level = specEntryPlan close ma20 level := by
  unfold entry_plan_us specEntryPlan
  rcases level <;> rcases close with _ | c <;> rcases ma20 with _ | m <;> simp
  all_goals split_ifs
  all_goals first
  | rfl
  | (rcases ‹m * (98/100) ≤ c ∧ c ≤ m * (102/100)› with ⟨hA, hB⟩; linarith)
  | (exact absurd ⟨by linarith, by linarith⟩ ‹¬(m * (98/100) ≤ c ∧ c ≤ m * (102/100))›)

/-- Claim C2: the market risk classifier counts one hit per triggered
condition (kospi at or below -1.5, kosdaq at or below -1.8, vix at or
above 6, flow pair present with both sides negative), classifies
2 or more hits as bad, exactly 1 as meh, 0 as good, and an undefined
or missing input leaves the counter as a neutral value would. -/
theorem C2_market_risk (kospi kosdaq vix : Option ℚ) (flow : Option Flow) :
    risk_hits kospi kosdaq vix flow = specRiskHits kospi kosdaq vix flow
    ∧ market_brief kospi kosdaq vix flow =
        (if 2 ≤ specRiskHits kospi kosdaq vix flow then RiskLevel.bad
         else if specRiskHits kospi kosdaq vix flow = 1 then RiskLevel.meh
         else RiskLevel.good)
    ∧ risk_hits none kosdaq vix flow = risk_hits (some 0) kosdaq vix flow
    ∧ risk_hits kospi none vix flow = risk_hits kospi (some 0) vix flow
    ∧ risk_hits kospi kosdaq none flow = risk_hits kospi kosdaq (some 0) flow
    ∧ risk_hits kospi kosdaq vix none =
        risk_hits kospi kosdaq vix (some { foreign := some 0, inst := some 0 }) := by
  refine ⟨risk_hits_eq_spec kospi kosdaq vix flow, ?_, ?_, ?_, ?_, ?_⟩
  · rw [market_brief, risk_level_of_hits, risk_hits_eq_spec]
  · unfold risk_hits defLe
    norm_num
  · unfold risk_hits defLe
    norm_num
  · unfold risk_hits defGe
    norm_num
  · unfold risk_hits bothNegFlow
    norm_num

/-- Claim C7: the exit signal engine and the risk classifier are total
and treat undefined fields as non-triggering: an undefined rsi, ma20,
close, chg5d or high_3m (or a zero ma20 or high_3m) never produces its
flag, the all-undefined snapshot yields no flags and stage none, an
all-undefined market input yields zero hits, and both functions always
return one of their enumerated values. -/
theorem C7_totality_undefined (close ma20 rsi_v chg5d high_3m kospi kosdaq vix : Option ℚ)
    (flow : Option Flow) :
    ExitFlag.rsi70 ∉ (exit_signals close ma20 none chg5d high_3m).2.1
    ∧ ExitFlag.dist20hi ∉ (exit_signals close none rsi_v chg5d high_3m).2.1
    ∧ ExitFlag.dist20hi ∉ (exit_signals close (some 0) rsi_v chg5d high_3m).2.1
    ∧ ExitFlag.dist20hi ∉ (exit_signals none ma20 rsi_v chg5d high_3m).2.1
    ∧ ExitFlag.chg5d12 ∉ (exit_signals close ma20 rsi_v none high_3m).2.1
    ∧ ExitFlag.nearHigh3m ∉ (exit_signals close ma20 rsi_v chg5d none).2.1
    ∧ ExitFlag.nearHigh3m ∉ (exit_signals close ma20 rsi_v chg5d (some 0)).2.1
    ∧ ExitFlag.nearHigh3m ∉ (exit_signals none ma20 rsi_v chg5d high_3m).2.1
    ∧ exit_signals none none none none none = (ExitStage.none, [], none)
    ∧ ((exit_signals close ma20 rsi_v chg5d high_3m).1 = ExitStage.none
        ∨ (exit_signals close ma20 rsi_v chg5d high_3m).1 = ExitStage.first
        ∨ (exit_signals close ma20 rsi_v chg5d high_3m).1 = ExitStage.second
        ∨ (exit_signals close ma20 rsi_v chg5d high_3m).1 = ExitStage.third)
    ∧ risk_hits none none none none = 0
    ∧ (market_brief kospi kosdaq vix flow = RiskLevel.good
        ∨ market_brief kospi kosdaq vix flow = RiskLevel.meh
        ∨ market_brief kospi kosdaq vix flow = RiskLevel.bad) := by
  refine ⟨?_, ?_, ?_, ?_, ?_, ?_, ?_, ?_, rfl, ?_, rfl, ?_⟩
  · rw [exit_signals_flags, mem_flags_rsi70]
    simp [defGe]
  · rw [exit_signals_flags, mem_flags_dist20hi]
    rcases close with _ | c <;> simp [defGe, dist20calc]
  · rw [exit_signals_flags, mem_flags_dist20hi]
    rcases close with _ | c <;> simp [defGe, dist20calc]
  · rw [exit_signals_flags, mem_flags_dist20hi]
    rcases ma20 with _ | m <;> simp [defGe, dist20calc]
  · rw [exit_signals_flags, mem_flags_chg5d12]
    simp [defGe]
  · rw [exit_signals_flags, mem_flags_nearHigh]
    rcases close with _ | c <;> simp [nearHighFlag]
  · rw [exit_signals_flags, mem_flags_nearHigh]
    rcases close with _ | c <;> simp [nearHighFlag]
  · rw [exit_signals_flags, mem_flags_nearHigh]
    rcases high_3m with _ | h <;> simp [nearHighFlag]
  · rw [exit_signals_fst]
    split_ifs <;> simp
  · unfold market_brief risk_level_of_hits
    split_ifs <;> simp

theorem exitFlagList_length_def (c m r g h : ℚ) (hm : m ≠ 0) (hh : h ≠ 0) :
    (exitFlagList (some c) (some m) (some r) (some g) (some h)).length
      = specExitFlagCount c m r g h := by
  unfold exitFlagList specExitFlagCount defGe dist20calc nearHighFlag
  simp [hm, hh]
  split_ifs <;> simp_all

theorem escalation_def (c m r g h : ℚ) (hm : m ≠ 0) (hh : h ≠ 0) :
    escalationCheck (exitFlagList (some c) (some m) (some r) (some g) (some h))
      (some r) (some g) (dist20calc (some c) (some m)) = specEscalation c m r g h := by
  have hmem : decide (ExitFlag.nearHigh3m ∈
      exitFlagList (some c) (some m) (some r) (some g) (some h)) =
      decide (h * (98/100) ≤ c) := by
    rw [decide_eq_decide, mem_flags_nearHigh]
    simp [nearHighFlag, hh]
  unfold escalationCheck specEscalation
  rw [hmem]
  simp [defGe, dist20calc, hm]

theorem stage_cascade_eq (n : ℕ) (esc : Bool) :
    (if decide (n ≥ 3) && esc then ExitStage.third
     else if n ≥ 3 then ExitStage.second
     else if n ≥ 2 then ExitStage.first
     else ExitStage.none) =
    (if n < 2 then ExitStage.none
     else if n = 2 then ExitStage.first
     else if esc then ExitStage.third
     else ExitStage.second) := by
  rcases esc <;> simp <;> split_ifs <;> first | rfl | omega

/-- Claim C1: on a defined snapshot the exit signal engine computes the
four-flag set with the stated thresholds, and returns stage none below
two flags, first at exactly two, second at three or more without
escalation and third at three or more with the escalation predicate
(rsi >= 80, or chg5d >= 15, or near-high flag with dist20 >= 9); in
particular the snapshot close 110, ma20 100, rsi 75, chg5d 13,
high_3m 112 yields stage third. -/
theorem C1_exit_stage (c m r g h : ℚ) (hm : m ≠ 0) (hh : h ≠ 0) :
    (exit_signals (some c) (some m) (some r) (some g) (some h)).1 = specExitStage c m r g h
    ∧ (exit_signals (some c) (some m) (some r) (some g) (some h)).2.1.length
        = specExitFlagCount c m r g h
    ∧ (exit_signals (some 110) (some 100) (some 75) (some 13) (some 112)).1
        = ExitStage.third := by
  refine ⟨?_, ?_, ?_⟩
  · rw [exit_signals_fst, exitFlagList_length_def c m r g h hm hh,
      escalation_def c m r g h hm hh, stage_cascade_eq]
    rfl
  · rw [exit_signals_flags, exitFlagList_length_def c m r g h hm hh]
  · norm_num [exit_signals, exitFlagList, escalationCheck, defGe, dist20calc, nearHighFlag]

/-- Witness for C1 at the scenario snapshot of the claim. -/
theorem C1_exit_stage_witness :
    (exit_signals (some 110) (some 100) (some 75) (some 13) (some 112)).1
      = ExitStage.third :=
  (C1_exit_stage 110 100 75 13 112 (by norm_num) (by norm_num)).2.2

theorem listMean_nonneg (l : List ℚ) (h : ∀ x ∈ l, 0 ≤ x) : 0 ≤ listMean l :=
  div_nonneg (List.sum_nonneg h) (Nat.cast_nonneg _)

theorem meanGain_nonneg (s : List ℚ) (period : ℕ) : 0 ≤ meanGain s period := by
  apply listMean_nonneg
  intro x hx
  rcases List.mem_map.mp hx with ⟨d, _, rfl⟩
  exact le_max_right d 0

theorem meanLoss_nonneg (s : List ℚ) (period : ℕ) : 0 ≤ meanLoss s period := by
  apply listMean_nonneg
  intro x hx
  rcases List.mem_map.mp hx with ⟨d, _, rfl⟩
  exact le_max_right (-d) 0

/-- Claim C8: on any series long enough for the rolling windows, the
last RSI value exists and lies in [0, 100]; the denominator after the
epsilon substitution is strictly positive (no division by zero), and
when the mean loss is exactly zero the value equals
100 - 100/(1 + meanGain * 10^9), the bias toward 100. -/
theorem C8_rsi_bounded (s : List ℚ) (hlen : 15 ≤ s.length) :
    ∃ v, rsiLast s 14 = some v ∧ 0 ≤ v ∧ v ≤ 100
      ∧ (0 : ℚ) < (if meanLoss s 14 = 0 then 1 / 1000000000 else meanLoss s 14)
      ∧ (meanLoss s 14 = 0 → v = 100 - 100 / (1 + meanGain s 14 * 1000000000)) := by
  have hg : 0 ≤ meanGain s 14 := meanGain_nonneg s 14
  have hl : 0 ≤ meanLoss s 14 := meanLoss_nonneg s 14
  have hdpos : (0 : ℚ) < (if meanLoss s 14 = 0 then 1 / 1000000000 else meanLoss s 14) := by
    split_ifs with h0
    · norm_num
    · exact lt_of_le_of_ne hl (Ne.symm h0)
  have hrs : 0 ≤ meanGain s 14 / (if meanLoss s 14 = 0 then 1 / 1000000000 else meanLoss s 14) :=
    div_nonneg hg hdpos.le
  have h1 : (0 : ℚ) < 1 + meanGain s 14 /
      (if meanLoss s 14 = 0 then 1 / 1000000000 else meanLoss s 14) := by linarith
  have h2 : 100 / (1 + meanGain s 14 /
      (if meanLoss s 14 = 0 then 1 / 1000000000 else meanLoss s 14)) ≤ 100 :=
    div_le_self (by norm_num) (by linarith)
  have h3 : 0 < 100 / (1 + meanGain s 14 /
      (if meanLoss s 14 = 0 then 1 / 1000000000 else meanLoss s 14)) :=
    div_pos (by norm_num) h1
  refine ⟨100 - 100 / (1 + meanGain s 14 /
      (if meanLoss s 14 = 0 then 1 / 1000000000 else meanLoss s 14)),
    ?_, by linarith, by linarith, hdpos, ?_⟩
  · rw [rsiLast, if_neg (by omega)]
  · intro h0
    rw [if_pos h0, one_div, div_inv_eq_mul]

/-- Witness for C8 on a concrete 15-point series with gains and losses. -/
theorem C8_rsi_bounded_witness :
    ∃ v, rsiLast [1, 2, 1, 2, 1, 2, 1, 2, 1, 2, 1, 2, 1, 2, 1] 14 = some v
      ∧ 0 ≤ v ∧ v ≤ 100
      ∧ (0 : ℚ) < (if meanLoss [1, 2, 1, 2, 1, 2, 1, 2, 1, 2, 1, 2, 1, 2, 1] 14 = 0
          then 1 / 1000000000 else meanLoss [1, 2, 1, 2, 1, 2, 1, 2, 1, 2, 1, 2, 1, 2, 1] 14)
      ∧ (meanLoss [1, 2, 1, 2, 1, 2, 1, 2, 1, 2, 1, 2, 1, 2, 1] 14 = 0 →
          v = 100 - 100 / (1 + meanGain [1, 2, 1, 2, 1, 2, 1, 2, 1, 2, 1, 2, 1, 2, 1] 14
            * 1000000000)) :=
  C8_rsi_bounded [1, 2, 1, 2, 1, 2, 1, 2, 1, 2, 1, 2, 1, 2, 1] (by norm_num)

theorem diffs_replicate_eq_zero (n : ℕ) (c : ℚ) :
    ∀ x ∈ diffs (List.replicate n c), x = 0 := by
  intro x hx
  unfold diffs at hx
  rcases List.mem_map.mp hx with ⟨p, hp, rfl⟩
  have h2 := List.of_mem_zip hp
  have e1 : p.1 = c := List.eq_of_mem_replicate h2.1
  have e2 : p.2 = c := by
    have hm := h2.2
    rw [List.tail_replicate] at hm
    exact List.eq_of_mem_replicate hm
  rw [e1, e2]
  ring

theorem meanGain_replicate (n : ℕ) (c : ℚ) : meanGain (List.replicate n c) 14 = 0 := by
  unfold meanGain listMean
  rw [List.sum_eq_zero, zero_div]
  intro x hx
  rcases List.mem_map.mp hx with ⟨d, hd, rfl⟩
  have hz := diffs_replicate_eq_zero n c d (List.drop_subset _ _ hd)
  simp [hz]

theorem meanLoss_replicate (n : ℕ) (c : ℚ) : meanLoss (List.replicate n c) 14 = 0 := by
  unfold meanLoss listMean
  rw [List.sum_eq_zero, zero_div]
  intro x hx
  rcases List.mem_map.mp hx with ⟨d, hd, rfl⟩
  have hz := diffs_replicate_eq_zero n c d (List.drop_subset _ _ hd)
  simp [hz]

/-- Claim C10: a constant series of at least 15 equal closes makes both
mean gain and mean loss zero, the epsilon replaces the zero loss, RS
is 0 and the RSI is exactly 0, not 50 and not 100. -/
theorem C10_flat_rsi_zero (n : ℕ) (c : ℚ) (hn : 15 ≤ n) :
    rsiLast (List.replicate n c) 14 = some 0 := by
  rw [rsiLast, if_neg (by simp; omega)]
  simp [meanGain_replicate, meanLoss_replicate]

/-- Witness for C10 on the concrete constant series of fifteen 7s. -/
theorem C10_flat_rsi_zero_witness :
    rsiLast (List.replicate 15 7) 14 = some 0 :=
  C10_flat_rsi_zero 15 7 (by norm_num)

theorem mem_of_mem_take_sortDesc (cs : List CandidateRecord) (n : ℕ) (r : CandidateRecord)
    (hr : r ∈ (sortDescByScore cs).take n) : r ∈ cs := by
  have h1 : r ∈ sortDescByScore cs := List.take_subset _ _ hr
  unfold sortDescByScore at h1
  rw [List.mem_reverse] at h1
  exact (List.perm_insertionSort _ _).mem_iff.mp h1

theorem picks_subset_scored (inputs : List CandInput) (level : RiskLevel) (limit : ℕ)
    (r : CandidateRecord)
    (hr : r ∈ (kr_reco_block level limit (collectCandidates inputs)).picks) :
    ∃ i ∈ inputs, score_candidate i.code i.window i.fund i.flow = some r := by
  unfold kr_reco_block at hr
  split_ifs at hr <;> simp at hr <;>
    exact List.mem_filterMap.mp
      (mem_of_mem_take_sortDesc (collectCandidates inputs) _ r hr)

/-- Claim C4: a candidate whose computed dist20 is at least 12, or whose
momentum is at least 18, or whose fundamentals are missing, or whose
eps is undefined or non-positive, is dropped entirely: score_candidate
returns no record for it, and everything ranked comes from a
successful score_candidate call, so such a candidate never appears in
the ranked output. -/
theorem C4_hard_exclusion (code : ℕ) (window : List ℚ) (fund : Option Fundamentals)
    (flow : Option Flow)
    (hex : (∃ d, windowDist20 window = some d ∧ 12 ≤ d)
      ∨ (∃ m5, windowMom5 window = some m5 ∧ 18 ≤ m5)
      ∨ fund = none
      ∨ (∃ f, fund = some f ∧ f.eps = none)
      ∨ (∃ f e, fund = some f ∧ f.eps = some e ∧ e ≤ 0)) :
    score_candidate code window fund flow = none
    ∧ ∀ (inputs : List CandInput) (level : RiskLevel) (limit : ℕ) (r : CandidateRecord),
        r ∈ (kr_reco_block level limit (collectCandidates inputs)).picks →
        ∃ i ∈ inputs, score_candidate i.code i.window i.fund i.flow = some r := by
  refine ⟨?_, fun inputs level limit r hr => picks_subset_scored inputs level limit r hr⟩
  unfold score_candidate
  split
  · rfl
  split
  · rfl
  next close hc =>
  rcases hex with ⟨d, hd, hd12⟩ | hex2
  · rw [hd]
    have : defGe (some d) 12 = true := by
      simp [defGe, hd12]
    rw [if_pos this]
  by_cases hdist : defGe (windowDist20 window) 12 = true
  · rw [if_pos hdist]
  rw [if_neg hdist]
  rcases hex2 with ⟨m5, hm5, hm18⟩ | hex3
  · rw [hm5]
    have : defGe (some m5) 18 = true := by
      simp [defGe, hm18]
    rw [if_pos this]
  by_cases hmom : defGe (windowMom5 window) 18 = true
  · rw [if_pos hmom]
  rw [if_neg hmom]
  rcases hex3 with rfl | ⟨f, rfl, hfe⟩ | ⟨f, e, rfl, hfe, hle⟩
  · rfl
  · dsimp only
    rw [hfe]
  · dsimp only
    rw [hfe]
    dsimp only
    rw [if_pos hle]

/-- Witness for C4 on the concrete overheated window with dist20 = 13. -/
theorem C4_hard_exclusion_witness :
    score_candidate 1 w20hot (some { per := some 10, eps := some 5 }) none = none :=
  (C4_hard_exclusion 1 w20hot (some { per := some 10, eps := some 5 }) none
    (Or.inl ⟨13, by norm_num [windowDist20, windowClose, windowMa20, listMean, lastN,
      w20hot, List.replicate], by norm_num⟩)).1

theorem clamp_minmax (x : ℚ) : max (min x 6) (-6) = min (max x (-6)) 6 := by
  rcases le_total x (-6) with h | h <;> rcases le_total x 6 with h2 | h2 <;>
    simp [min_def, max_def] <;> split_ifs <;> linarith

theorem srcScore_eq_specScore (m d p : Option ℚ) (fl : Option Flow) :
    srcScore m d p (flowPenaltyCalc fl) = specScore m d p fl := by
  unfold srcScore specScore specValuationAdj specFlowPenalty flowPenaltyCalc
  rcases m with _ | m <;> rcases d with _ | d <;> rcases p with _ | p <;>
    rcases fl with _ | ⟨(_ | ff), (_ | fi)⟩ <;>
    simp [clamp_minmax] <;> split_ifs <;>
    first
    | linarith
    | (exact absurd ⟨by linarith, by linarith⟩ ‹¬(35 ≤ p ∧ p < 60)›)

/-- Claim C5: every record score_candidate returns carries the composite
score: momentum contribution (0 when undefined) plus the dist20 value
clamped to [-6, 6] scaled by 0.7 (0 when undefined) plus the per
valuation adjustment (-5 at per >= 60, -2 at 35 <= per < 60, else 0)
plus the -3.5 flow penalty exactly when both flow sides are present
and negative; the record fields are the window computations. -/
theorem C5_composite_score (code : ℕ) (window : List ℚ) (fund : Option Fundamentals)
    (flow : Option Flow) (rec : CandidateRecord)
    (h : score_candidate code window fund flow = some rec) :
    rec.score = specScore rec.mom5 rec.dist20 rec.per rec.flow
    ∧ rec.mom5 = windowMom5 window
    ∧ rec.dist20 = windowDist20 window
    ∧ rec.flow = flow := by
  unfold score_candidate at h
  split at h
  · exact absurd h (by simp)
  split at h
  · exact absurd h (by simp)
  next close hc =>
  split at h
  · exact absurd h (by simp)
  split at h
  · exact absurd h (by simp)
  split at h
  · exact absurd h (by simp)
  next f =>
  split at h
  · exact absurd h (by simp)
  next eps heps =>
  split at h
  · exact absurd h (by simp)
  rw [Option.some_inj] at h
  subst h
  exact ⟨srcScore_eq_specScore _ _ _ flow, rfl, rfl, rfl⟩

/-- Witness for C5 on the flat window candidate. -/
theorem C5_composite_score_witness :
    recFlat.score = specScore recFlat.mom5 recFlat.dist20 recFlat.per recFlat.flow :=
  (C5_composite_score 2 w20flat (some { per := some 10, eps := some 5 }) none recFlat
    (by norm_num [score_candidate, windowClose, windowMa20, windowDist20, windowMom5,
      listMean, lastN, defGe, srcScore, flowPenaltyCalc, recFlat, w20flat,
      List.replicate])).1

/-- Claim C3 counterexample: with two surviving candidates of equal
score supplied in identifier-ascending order, the ranked output is in
identifier-descending order, so ties are not broken by identifier
ascending; and reversing the input order changes the ranked list, so
the result is not independent of evaluation order. -/
theorem C3_counterexample :
    recA.score = recB.score
    ∧ recA.code < recB.code
    ∧ (kr_reco_block RiskLevel.good 3 [recA, recB]).picks = [recB, recA]
    ∧ (kr_reco_block RiskLevel.good 3 [recA, recB]).picks
        ≠ (kr_reco_block RiskLevel.good 3 [recB, recA]).picks := by
  refine ⟨rfl, by norm_num [recA, recB], ?_, ?_⟩
  · simp [kr_reco_block, sortDescByScore, List.insertionSort, List.orderedInsert, recA, recB]
  · simp [kr_reco_block, sortDescByScore, List.insertionSort, List.orderedInsert, recA, recB]

/-- Claim C3 (amended): the ranked output is a deterministic function of
the surviving candidate list and the risk level, sorted by score
descending with ties in reverse input order (no identifier
tie-break): on bad risk selection is skipped with the
no-recommendations message and an empty list, on meh risk the top 2
of the descending sort are taken, otherwise the top limit; the sorted
list is a permutation of the candidates with scores nonincreasing. -/
theorem C3_ranked_output (limit : ℕ) (cs : List CandidateRecord) :
    kr_reco_block RiskLevel.bad limit cs = { msg := RecoMsg.noRecoBad, picks := [] }
    ∧ (kr_reco_block RiskLevel.meh limit cs).picks = (sortDescByScore cs).take 2
    ∧ (kr_reco_block RiskLevel.good limit cs).picks = (sortDescByScore cs).take limit
    ∧ (sortDescByScore cs).Perm cs
    ∧ ((sortDescByScore cs).map CandidateRecord.score).Sorted (· ≥ ·) := by
  refine ⟨rfl, ?_, ?_, ?_, ?_⟩
  · unfold kr_reco_block
    split_ifs with h1 h2 <;> simp_all [sortDescByScore]
  · unfold kr_reco_block
    split_ifs with h1 h2 <;> simp_all [sortDescByScore]
  · exact (List.reverse_perm _).trans (List.perm_insertionSort _ _)
  · have hs := List.sorted_insertionSort (fun a b : CandidateRecord => a.score ≤ b.score) cs
    unfold sortDescByScore
    unfold List.Sorted at hs ⊢
    rw [List.pairwise_map, List.pairwise_reverse]
    simpa [flip, GE.ge] using hs

/-- Claim C9 counterexample: a 10-point window accepted by the pipeline
has an undefined ma20 and an undefined dist20, although the
shorter-window moving average the spec describes is defined and
nonzero there, so the claimed fallback does not exist in the code. -/
theorem C9_counterexample :
    w10.length = 10
    ∧ windowMa20 w10 = none
    ∧ windowDist20 w10 = none
    ∧ specShortMa w10 = some (11/2)
    ∧ windowMa20 w10 ≠ specShortMa w10 := by
  refine ⟨by norm_num [w10], by norm_num [windowMa20, w10], ?_, ?_, ?_⟩
  · norm_num [windowDist20, windowClose, windowMa20, w10]
  · norm_num [specShortMa, listMean, lastN, w10]
  · norm_num [windowMa20, specShortMa, listMean, lastN, w10]
    simp

/-- Claim C9 (amended): in the candidate scorer a window of at least 10
but fewer than 20 points has undefined ma20 and dist20 (the rolling
20-point mean needs 20 observations and there is no shorter-window
fallback); dist20 is defined exactly on windows of at least 20 points
whose 20-point mean is nonzero. -/
theorem C9_short_window (window : List ℚ) :
    (10 ≤ window.length → window.length < 20 →
      windowMa20 window = none ∧ windowDist20 window = none)
    ∧ (20 ≤ window.length → listMean (lastN 20 window) ≠ 0 →
      ∃ c, windowClose window = some c
        ∧ windowMa20 window = some (listMean (lastN 20 window))
        ∧ windowDist20 window = some ((c / listMean (lastN 20 window) - 1) * 100)) := by
  constructor
  · intro h10 h20
    have hma : windowMa20 window = none := by
      unfold windowMa20
      rw [if_neg (by omega)]
    refine ⟨hma, ?_⟩
    unfold windowDist20
    rw [hma]
    rcases windowClose window with _ | c <;> rfl
  · intro h20 hmean
    have hne : window ≠ [] := by
      intro he
      rw [he] at h20
      simp at h20
    obtain ⟨c, hc⟩ := Option.isSome_iff_exists.mp (List.getLast?_isSome.mpr hne)
    have hc2 : windowClose window = some c := hc
    have hma : windowMa20 window = some (listMean (lastN 20 window)) := by
      unfold windowMa20
      rw [if_pos h20]
    refine ⟨c, hc2, hma, ?_⟩
    unfold windowDist20
    rw [hc2, hma]
    dsimp only
    rw [if_pos hmean]

/-- Witness for C9 on the 10-point and flat 20-point windows. -/
theorem C9_short_window_witness :
    (windowMa20 w10 = none ∧ windowDist20 w10 = none)
    ∧ ∃ c, windowClose w20flat = some c
        ∧ windowMa20 w20flat = some (listMean (lastN 20 w20flat))
        ∧ windowDist20 w20flat = some ((c / listMean (lastN 20 w20flat) - 1) * 100) :=
  ⟨(C9_short_window w10).1 (by norm_num [w10]) (by norm_num [w10]),
   (C9_short_window w20flat).2 (by norm_num [w20flat])
     (by norm_num [listMean, lastN, w20flat, List.replicate])⟩

end SendBriefing
